import Mathlib

/-!
Shallow embedding of the AWS-Lambda-based-Image-Processing-Workflow front end.

The repository is a browser front end with three source files:
  - types.ts: the `ProcessingOptions` record and the `WorkflowStep` enum;
  - services/geminiService.ts: `getProcessingDimensions` and the two
    text-generation calls `generateProcessingCode` / `generateMonitoringLogs`;
  - the App component (src/unnamed/part_000): `applyImageProcessing` (canvas
    path), the `handleStartWorkflow` orchestration, `resetWorkflow`,
    and `isButtonDisabled`.

Asynchrony is embedded by passing the settled outcome of each of the three
concurrent operations as an explicit parameter and recording the run as a
trace of UI-state events; the final state is the left fold of the events
over the starting state.  Network nondeterminism of the Gemini API is an
explicit `ApiOutcome` oracle parameter.
-/

namespace ImageWorkflow

/-- The `size` union of `ProcessingOptions` in types.ts:
`thumbnail | medium | large`. -/
inductive Size
  | thumbnail
  | medium
  | large
deriving DecidableEq, Repr

/-- The `filter` union of `ProcessingOptions` in types.ts:
`none | grayscale | sepia | invert`. -/
inductive Filter
  | none
  | grayscale
  | sepia
  | invert
deriving DecidableEq, Repr

/-- `ProcessingOptions` from types.ts. -/
structure ProcessingOptions where
  size : Size
  filter : Filter
deriving DecidableEq, Repr

/-- `WorkflowStep` from types.ts (a numeric enum, values 0..3). -/
inductive WorkflowStep
  | UPLOAD
  | PROCESS
  | MONITOR
  | DONE
deriving DecidableEq, Repr

/-- The numeric value of each `WorkflowStep` enum member. -/
def WorkflowStep.toNat : WorkflowStep → Nat
  | .UPLOAD => 0
  | .PROCESS => 1
  | .MONITOR => 2
  | .DONE => 3

/-- The runtime string a `Size` member holds in the running program. -/
def Size.toRuntimeString : Size → String
  | .thumbnail => "thumbnail"
  | .medium => "medium"
  | .large => "large"

/-- The runtime string a `Filter` member holds in the running program. -/
def Filter.toRuntimeString : Filter → String
  | .none => "none"
  | .grayscale => "grayscale"
  | .sepia => "sepia"
  | .invert => "invert"

/-- The `{ width, height }` record returned by `getProcessingDimensions`. -/
structure Dimensions where
  width : Nat
  height : Nat
deriving DecidableEq, Repr

/-- `getProcessingDimensions` from geminiService.ts, lines 7-14: a switch over
the runtime size string, with a default branch returning 500x500. -/
def getProcessingDimensions (size : String) : Dimensions :=
  if size = "thumbnail" then ⟨150, 150⟩
  else if size = "medium" then ⟨500, 500⟩
  else if size = "large" then ⟨1024, 1024⟩
  else ⟨500, 500⟩

/-- The local `filterName` computed in `generateProcessingCode`, line 18
(`options.filter === "grayscale" ? "L" : "RGB"`); it is computed but never
used by the prompt in the source. -/
def processingFilterName (f : Filter) : String :=
  if f = Filter.grayscale then "L" else "RGB"

/-- The prompt template of `generateProcessingCode`, lines 20-35. -/
def processingCodePrompt (options : ProcessingOptions) : String :=
  let d := getProcessingDimensions options.size.toRuntimeString
  let width := d.width
  let height := d.height
  let filterStr := options.filter.toRuntimeString
  "\nYou are an expert Python developer specializing in image processing with AWS Lambda.\nGenerate a complete, self-contained Python Lambda handler function using the Pillow (PIL) library.\n\nThe function should:\n1. Be named `lambda_handler`.\n2. Accept `event` and `context` arguments.\n3. For demonstration, open a placeholder image named \x27input_image.jpg\x27.\n"
    ++ s!"4. Resize the image to {width}x{height} pixels.\n"
    ++ (if options.filter ≠ Filter.none then
          "5. Apply a \x27" ++ filterStr ++ "\x27 filter."
        else "5. Perform no color filtering.")
    ++ "\n6. Save the processed image to a placeholder path \x27/tmp/processed_image.jpg\x27.\n7. Return a success response including the path of the saved file.\n\nDo not include code for fetching from or saving to S3. Focus only on the image manipulation logic within the handler.\nProvide only the Python code in a single block, without any introductory text, explanations, or markdown formatting.\n"

/-- The prompt template of `generateMonitoringLogs`, lines 53-65. -/
def monitoringLogsPrompt (options : ProcessingOptions) (filename : String) : String :=
  let d := getProcessingDimensions options.size.toRuntimeString
  let width := d.width
  let height := d.height
  let filterStr := options.filter.toRuntimeString
  "\nGenerate a realistic, multi-line AWS CloudWatch log entry for a Python Lambda function that successfully processed an image from S3.\n\nThe log must include the following lines, in order:\n1. A START line with a unique RequestId.\n"
    ++ s!"2. A line logging \x27Processing image: {filename}\x27.\n"
    ++ s!"3. A line logging \x27Applying filter: {filterStr} and resizing to {width}x{height}\x27.\n"
    ++ "4. A line logging \x27Image processing complete. Saved to /tmp/processed_image.jpg\x27.\n5. An END line with the same RequestId.\n6. A REPORT line with the same RequestId, and plausible random values for Duration (between 200-800ms), Billed Duration (slightly higher than Duration), Memory Size (128 MB), and Max Memory Used (between 60-100 MB).\n\nProvide only the log text, without any introductory text, explanations or markdown formatting.\n"

/-- One request handed to `ai.models.generateContent`. -/
structure ApiRequest where
  model : String
  contents : String
deriving DecidableEq, Repr

/-- The outcome of one `ai.models.generateContent` call: either the response
text, or a thrown error (carrying its message). -/
inductive ApiOutcome
  | ok (text : String)
  | apiError (message : String)
deriving DecidableEq, Repr

/-- The observable behaviour of one service invocation: the list of requests
it issued to the hosted model, and the string its promise fulfils with.  The
result type being `String` (not an error sum) reflects that both service
functions catch every API error and fulfil. -/
structure GenServiceRun where
  requests : List ApiRequest
  result : String
deriving DecidableEq, Repr

/-- `generateProcessingCode` from geminiService.ts, lines 16-47: one
`generateContent` request with model gemini-2.5-pro inside a single
try/catch; on failure it logs and returns a fixed error string. -/
def generateProcessingCode (api : ApiOutcome) (options : ProcessingOptions) :
    GenServiceRun :=
  let req : ApiRequest := ⟨"gemini-2.5-pro", processingCodePrompt options⟩
  match api with
  | .ok t => ⟨[req], t⟩
  | .apiError _ => ⟨[req], "Error: Could not generate code."⟩

/-- `generateMonitoringLogs` from geminiService.ts, lines 50-77: one
`generateContent` request with model gemini-2.5-flash inside a single
try/catch; on failure it logs and returns a fixed error string. -/
def generateMonitoringLogs (api : ApiOutcome) (options : ProcessingOptions)
    (filename : String) : GenServiceRun :=
  let req : ApiRequest := ⟨"gemini-2.5-flash", monitoringLogsPrompt options filename⟩
  match api with
  | .ok t => ⟨[req], t⟩
  | .apiError _ => ⟨[req], "Error: Could not generate logs."⟩

/-- The dimension object literal of `applyImageProcessing` (App, lines 20-24):
`\x7b thumbnail: 150, medium: 500, large: 1024 \x7d[options.size]`; the keys
cover exactly the closed `Size` union, so the lookup is total. -/
def canvasDimensions : Size → Nat
  | .thumbnail => 150
  | .medium => 500
  | .large => 1024

/-- The filter switch of `applyImageProcessing` (App, lines 29-35); the
default branch of the switch yields the CSS value none. -/
def filterCss : Filter → String
  | .grayscale => "grayscale(100%)"
  | .sepia => "sepia(100%)"
  | .invert => "invert(100%)"
  | .none => "none"

/-- The browser environment `applyImageProcessing` depends on: whether the
image element fires onload (rather than onerror), and whether
`canvas.getContext` yields a 2d context. -/
structure CanvasEnv where
  imageLoads : Bool
  contextAvailable : Bool
deriving DecidableEq, Repr

/-- The value `applyImageProcessing` resolves with, abstracted from the pixel
encoding: `canvas.toDataURL` applied to a square canvas of the computed
dimension with the computed CSS filter in effect. -/
structure DataUrl where
  mime : String
  width : Nat
  height : Nat
  filter : String
deriving DecidableEq, Repr

/-- The settled outcome of a promise, as observed through
`Promise.allSettled`. -/
inductive Settled (α : Type)
  | fulfilled (value : α)
  | rejected (reason : String)
deriving DecidableEq, Repr

/-- `applyImageProcessing` from the App component, lines 6-44: draw the
uploaded image on a square canvas of the selected dimension with the selected
CSS filter and resolve with the JPEG data URL; reject when the image fails to
load or no 2d context is available.  It performs no network request. -/
def applyImageProcessing (env : CanvasEnv) (_imageUrl : String)
    (options : ProcessingOptions) : Settled DataUrl :=
  if env.imageLoads then
    if env.contextAvailable then
      let d := canvasDimensions options.size
      .fulfilled ⟨"image/jpeg", d, d, filterCss options.filter⟩
    else .rejected "Could not get canvas context"
  else .rejected "image load error"

/-- Marker for which of the three parallel tasks a start event belongs to:
the two remote text-generation calls and the local canvas task. -/
inductive OpKind
  | remoteCode
  | remoteLogs
  | localImage
deriving DecidableEq, Repr

/-- One observable step of `handleStartWorkflow`: a React state-setter call,
a simulated delay, the kick-off of one of the three parallel tasks, or the
`Promise.allSettled` join. -/
inductive Event
  | setLoading (b : Bool)
  | setStep (s : WorkflowStep)
  | setPythonCode (v : String)
  | setProcessedImageUrl (v : Option DataUrl)
  | setCloudwatchLogs (v : String)
  | setError (v : Option String)
  | sleep (ms : Nat)
  | startOp (k : OpKind)
  | joinAll
deriving DecidableEq, Repr

/-- The App component state touched by the workflow.  `imageFile` is the
selected file (modelled by its name), `imageUrl` its data URL, and
`processedImageUrl` holds the canvas data URL.  The `activeTab` field of the
component is omitted: no code in `handleStartWorkflow` reads or writes it. -/
structure AppState where
  imageFile : Option String
  imageUrl : Option String
  processedImageUrl : Option DataUrl
  options : ProcessingOptions
  currentStep : WorkflowStep
  pythonCode : String
  cloudwatchLogs : String
  isLoading : Bool
  error : Option String
deriving DecidableEq, Repr

/-- The effect of one event on the component state; delays, kick-offs and the
join do not change state. -/
def applyEvent (s : AppState) : Event → AppState
  | .setLoading b => { s with isLoading := b }
  | .setStep st => { s with currentStep := st }
  | .setPythonCode v => { s with pythonCode := v }
  | .setProcessedImageUrl v => { s with processedImageUrl := v }
  | .setCloudwatchLogs v => { s with cloudwatchLogs := v }
  | .setError v => { s with error := v }
  | .sleep _ => s
  | .startOp _ => s
  | .joinAll => s

/-- `resetWorkflow` from the App component, lines 78-84. -/
def resetWorkflowEvents : List Event :=
  [.setProcessedImageUrl none, .setStep .UPLOAD, .setPythonCode "",
   .setCloudwatchLogs "", .setError none]

/-- The catch block of `handleStartWorkflow`, lines 122-125: store
`err.message` (or the generic message when it is empty, after JS
truthiness) and reset the step to UPLOAD. -/
def catchEvents (message : String) : List Event :=
  [.setError (some (if message = "" then "An error occurred during the workflow."
                    else message)),
   .setStep .UPLOAD]

/-- Lines 106-120 of `handleStartWorkflow`: the checks after the
`Promise.allSettled` join.  A rejected result makes the corresponding check
throw, which skips the rest of the try block and runs the catch block. -/
def bodyAfterJoin (codeResult logsResult : Settled String)
    (processedImageResult : Settled DataUrl) : List Event :=
  match codeResult with
  | .rejected _ => catchEvents "Failed to generate code."
  | .fulfilled c =>
    .setPythonCode c ::
      match processedImageResult with
      | .rejected _ => catchEvents "Failed to process image."
      | .fulfilled p =>
        .setProcessedImageUrl (some p) :: .setStep .MONITOR :: .sleep 500 ::
          match logsResult with
          | .rejected _ => catchEvents "Failed to generate logs."
          | .fulfilled l => [.setCloudwatchLogs l, .setStep .DONE]

/-- JS truthiness of the nullable `imageUrl` string: null and the empty
string are falsy. -/
def truthyStr : Option String → Bool
  | Option.none => false
  | some u => u != ""

/-- The guard at line 87: the workflow proceeds only when `imageFile` and
`imageUrl` are both truthy (a File object is truthy whenever present). -/
def startAllowed (s : AppState) : Bool :=
  s.imageFile.isSome && truthyStr s.imageUrl

/-- The event trace of one `handleStartWorkflow` invocation (lines 86-129),
given the settled outcome of each of the three parallel tasks.  When the
guard fails the function returns before touching any state. -/
def handleStartWorkflowTrace (s : AppState) (codeResult logsResult : Settled String)
    (processedImageResult : Settled DataUrl) : List Event :=
  if startAllowed s then
    Event.setLoading true :: resetWorkflowEvents ++
      Event.sleep 500 :: Event.setStep .PROCESS ::
      Event.startOp .remoteCode :: Event.startOp .remoteLogs ::
      Event.startOp .localImage :: Event.joinAll ::
      bodyAfterJoin codeResult logsResult processedImageResult ++
      [Event.setLoading false]
  else []

/-- A complete run: the trace together with the state after it. -/
structure WorkflowRun where
  trace : List Event
  final : AppState
deriving DecidableEq, Repr

/-- `handleStartWorkflow` as a state transformer: its trace and the state it
leaves behind. -/
def handleStartWorkflow (s : AppState) (codeResult logsResult : Settled String)
    (processedImageResult : Settled DataUrl) : WorkflowRun :=
  let t := handleStartWorkflowTrace s codeResult logsResult processedImageResult
  ⟨t, t.foldl applyEvent s⟩

/-- `isButtonDisabled` from the App component, line 131:
`!imageFile || isLoading`. -/
def isButtonDisabled (s : AppState) : Bool :=
  s.imageFile.isNone || s.isLoading

/-- Whether an event is the kick-off of one of the parallel tasks. -/
def isStartOp : Event → Bool
  | .startOp _ => true
  | _ => false

/-- The step written by an event, when it is a `setCurrentStep` call. -/
def stepWrite : Event → Option WorkflowStep
  | .setStep st => some st
  | _ => Option.none

/-- A concrete component state with an image selected, used to instantiate
the theorems below. -/
def sampleState : AppState :=
  { imageFile := some "cat.png"
    imageUrl := some "data:image/png;base64,AAAA"
    processedImageUrl := Option.none
    options := ⟨Size.medium, Filter.none⟩
    currentStep := WorkflowStep.UPLOAD
    pythonCode := ""
    cloudwatchLogs := ""
    isLoading := false
    error := Option.none }

/-- A concrete component state with no file selected. -/
def noFileState : AppState :=
  { sampleState with imageFile := Option.none }

/-- A concrete canvas data URL used to instantiate the theorems below. -/
def sampleDataUrl : DataUrl :=
  ⟨"image/jpeg", 500, 500, "none"⟩

/-- C4: the options-to-constants mapping is a fixed lookup: thumbnail 150,
medium 500, large 1024 (and `getProcessingDimensions` agrees with the canvas
lookup on every member of the size union), and the filter switch maps
grayscale, sepia, invert and none to the corresponding CSS values. -/
theorem c4_options_lookup_fixed :
    (∀ s : Size, getProcessingDimensions s.toRuntimeString =
      ⟨canvasDimensions s, canvasDimensions s⟩) ∧
    canvasDimensions Size.thumbnail = 150 ∧
    canvasDimensions Size.medium = 500 ∧
    canvasDimensions Size.large = 1024 ∧
    filterCss Filter.grayscale = "grayscale(100%)" ∧
    filterCss Filter.sepia = "sepia(100%)" ∧
    filterCss Filter.invert = "invert(100%)" ∧
    filterCss Filter.none = "none" := by
  refine ⟨fun s => ?_, rfl, rfl, rfl, rfl, rfl, rfl, rfl⟩
  cases s <;> rfl

/-- C5: each service function issues exactly one request to the hosted model
per invocation, and on an API error it returns its fixed error string — no
retry, no backoff. -/
theorem c5_one_request_single_catch (api : ApiOutcome) (options : ProcessingOptions)
    (filename m : String) :
    (generateProcessingCode api options).requests.length = 1 ∧
    (generateMonitoringLogs api options filename).requests.length = 1 ∧
    (generateProcessingCode (ApiOutcome.apiError m) options).result =
      "Error: Could not generate code." ∧
    (generateMonitoringLogs (ApiOutcome.apiError m) options filename).result =
      "Error: Could not generate logs." := by
  cases api <;> exact ⟨rfl, rfl, rfl, rfl⟩

/-- C7: when the image loads and a 2d context is available,
`applyImageProcessing` resolves with a JPEG data URL of a square canvas whose
side is the selected size dimension, with the selected CSS filter applied. -/
theorem c7_clientside_canvas_preview (url : String) (options : ProcessingOptions) :
    applyImageProcessing ⟨true, true⟩ url options =
      Settled.fulfilled
        ⟨"image/jpeg", canvasDimensions options.size, canvasDimensions options.size,
         filterCss options.filter⟩ := rfl

/-- C9: `getProcessingDimensions` is total — every size string other than
thumbnail, medium and large falls to the default branch and yields 500x500,
the same value as medium. -/
theorem c9_dimensions_default_total (size : String) (h1 : size ≠ "thumbnail")
    (h2 : size ≠ "medium") (h3 : size ≠ "large") :
    getProcessingDimensions size = ⟨500, 500⟩ ∧
    getProcessingDimensions size = getProcessingDimensions "medium" := by
  refine ⟨?_, ?_⟩ <;> simp [getProcessingDimensions, h1, h2, h3]

/-- Witness for C9 at the unexpected size string xl. -/
theorem c9_dimensions_default_total_witness :
    ("xl" : String) ≠ "thumbnail" ∧ ("xl" : String) ≠ "medium" ∧
    ("xl" : String) ≠ "large" ∧
    (getProcessingDimensions "xl" = ⟨500, 500⟩ ∧
      getProcessingDimensions "xl" = getProcessingDimensions "medium") :=
  ⟨by decide, by decide, by decide,
   c9_dimensions_default_total "xl" (by decide) (by decide) (by decide)⟩

/-- C10: when no image is uploaded (`imageFile` or `imageUrl` null) the
workflow handler is a no-op — empty trace, state unchanged — and the start
button is disabled whenever no file is selected or a run is in progress. -/
theorem c10_guard_noop_and_button (s : AppState)
    (codeResult logsResult : Settled String) (processedImageResult : Settled DataUrl) :
    ((s.imageFile = Option.none ∨ s.imageUrl = Option.none) →
      (handleStartWorkflow s codeResult logsResult processedImageResult).trace = [] ∧
      (handleStartWorkflow s codeResult logsResult processedImageResult).final = s) ∧
    ((s.imageFile = Option.none ∨ s.isLoading = true) → isButtonDisabled s = true) := by
  constructor
  · intro h
    have hg : startAllowed s = false := by
      rcases h with h | h <;> simp [startAllowed, truthyStr, h]
    simp [handleStartWorkflow, handleStartWorkflowTrace, hg]
  · intro h
    rcases h with h | h <;> simp [isButtonDisabled, h]

/-- Witness for C10 at a state with no file selected. -/
theorem c10_guard_noop_and_button_witness :
    (noFileState.imageFile = Option.none ∨ noFileState.imageUrl = Option.none) ∧
    ((handleStartWorkflow noFileState (Settled.fulfilled "c") (Settled.fulfilled "l")
        (Settled.rejected "e")).trace = [] ∧
      (handleStartWorkflow noFileState (Settled.fulfilled "c") (Settled.fulfilled "l")
        (Settled.rejected "e")).final = noFileState) ∧
    isButtonDisabled noFileState = true :=
  ⟨Or.inl rfl,
   (c10_guard_noop_and_button noFileState (Settled.fulfilled "c") (Settled.fulfilled "l")
      (Settled.rejected "e")).1 (Or.inl rfl),
   (c10_guard_noop_and_button noFileState (Settled.fulfilled "c") (Settled.fulfilled "l")
      (Settled.rejected "e")).2 (Or.inl rfl)⟩

/-- C1 counterexample: with code generation and log generation fulfilled and
image processing rejected, the image check throws before the logs check, so
the fulfilled logs result is never stored — `cloudwatchLogs` stays empty
instead of receiving log-text.  A completed operation is thus not displayed
when another operation failed. -/
theorem c1_counterexample :
    (handleStartWorkflow sampleState (Settled.fulfilled "code-text")
        (Settled.fulfilled "log-text")
        (Settled.rejected "image load error")).final.cloudwatchLogs = "" ∧
    (handleStartWorkflow sampleState (Settled.fulfilled "code-text")
        (Settled.fulfilled "log-text")
        (Settled.rejected "image load error")).final.cloudwatchLogs ≠ "log-text" := by
  decide

/-- C1 amended: a completed operation's result is stored only when every
operation checked before it also completed — `pythonCode` receives the code
result whenever code generation fulfils, `processedImageUrl` receives the
canvas result only when code generation also fulfilled, and `cloudwatchLogs`
receives the logs result only when code generation and image processing both
fulfilled; otherwise each state keeps its reset value. -/
theorem c1_amended_results_gated (s : AppState)
    (codeResult logsResult : Settled String) (processedImageResult : Settled DataUrl)
    (h : startAllowed s = true) :
    (handleStartWorkflow s codeResult logsResult processedImageResult).final.pythonCode =
      (match codeResult with
       | .fulfilled c => c
       | .rejected _ => "") ∧
    (handleStartWorkflow s codeResult logsResult
        processedImageResult).final.processedImageUrl =
      (match codeResult, processedImageResult with
       | .fulfilled _, .fulfilled p => some p
       | _, _ => Option.none) ∧
    (handleStartWorkflow s codeResult logsResult
        processedImageResult).final.cloudwatchLogs =
      (match codeResult, processedImageResult, logsResult with
       | .fulfilled _, .fulfilled _, .fulfilled l => l
       | _, _, _ => "") := by
  rcases codeResult with c | m₁ <;> rcases processedImageResult with p | m₂ <;>
    rcases logsResult with l | m₃ <;>
    simp [handleStartWorkflow, handleStartWorkflowTrace, h, resetWorkflowEvents,
      bodyAfterJoin, catchEvents, applyEvent]

/-- Witness for the amended C1 at a concrete state and concrete outcomes. -/
theorem c1_amended_results_gated_witness :
    startAllowed sampleState = true ∧
    ((handleStartWorkflow sampleState (Settled.fulfilled "code-text")
        (Settled.fulfilled "log-text")
        (Settled.rejected "image load error")).final.pythonCode =
      (match (Settled.fulfilled "code-text" : Settled String) with
       | .fulfilled c => c
       | .rejected _ => "") ∧
    (handleStartWorkflow sampleState (Settled.fulfilled "code-text")
        (Settled.fulfilled "log-text")
        (Settled.rejected "image load error")).final.processedImageUrl =
      (match (Settled.fulfilled "code-text" : Settled String),
          (Settled.rejected "image load error" : Settled DataUrl) with
       | .fulfilled _, .fulfilled p => some p
       | _, _ => Option.none) ∧
    (handleStartWorkflow sampleState (Settled.fulfilled "code-text")
        (Settled.fulfilled "log-text")
        (Settled.rejected "image load error")).final.cloudwatchLogs =
      (match (Settled.fulfilled "code-text" : Settled String),
          (Settled.rejected "image load error" : Settled DataUrl),
          (Settled.fulfilled "log-text" : Settled String) with
       | .fulfilled _, .fulfilled _, .fulfilled l => l
       | _, _, _ => "")) :=
  ⟨by decide,
   c1_amended_results_gated sampleState (Settled.fulfilled "code-text")
     (Settled.fulfilled "log-text") (Settled.rejected "image load error") (by decide)⟩

/-- C2: a run past the guard kicks off exactly the three parallel tasks (the
two remote text-generation calls and the local canvas task) and joins them
once; the concrete pre-join portion of the trace shows that the only writes
before the join are the reset-to-initial writes, and everything after the
single join contains no further kick-off or join, so every result update
happens after all three outcomes settled. -/
theorem c2_three_tasks_single_join (s : AppState)
    (codeResult logsResult : Settled String) (processedImageResult : Settled DataUrl)
    (h : startAllowed s = true) :
    ∃ post : List Event,
      (handleStartWorkflow s codeResult logsResult processedImageResult).trace =
        [Event.setLoading true, Event.setProcessedImageUrl Option.none,
         Event.setStep WorkflowStep.UPLOAD, Event.setPythonCode "",
         Event.setCloudwatchLogs "", Event.setError Option.none,
         Event.sleep 500, Event.setStep WorkflowStep.PROCESS,
         Event.startOp OpKind.remoteCode, Event.startOp OpKind.remoteLogs,
         Event.startOp OpKind.localImage, Event.joinAll] ++ post ∧
      Event.joinAll ∉ post ∧
      post.countP isStartOp = 0 ∧
      (handleStartWorkflow s codeResult logsResult
        processedImageResult).trace.countP isStartOp = 3 := by
  refine ⟨bodyAfterJoin codeResult logsResult processedImageResult ++
    [Event.setLoading false], ?_, ?_, ?_, ?_⟩
  · simp [handleStartWorkflow, handleStartWorkflowTrace, h, resetWorkflowEvents]
  · rcases codeResult with c | m₁ <;> rcases processedImageResult with p | m₂ <;>
      rcases logsResult with l | m₃ <;>
      simp [bodyAfterJoin, catchEvents]
  · rcases codeResult with c | m₁ <;> rcases processedImageResult with p | m₂ <;>
      rcases logsResult with l | m₃ <;>
      simp [bodyAfterJoin, catchEvents, isStartOp]
  · rcases codeResult with c | m₁ <;> rcases processedImageResult with p | m₂ <;>
      rcases logsResult with l | m₃ <;>
      simp [handleStartWorkflow, handleStartWorkflowTrace, h, resetWorkflowEvents,
        bodyAfterJoin, catchEvents, isStartOp]

/-- Witness for C2 at a concrete state and concrete outcomes. -/
theorem c2_three_tasks_single_join_witness :
    startAllowed sampleState = true ∧
    (∃ post : List Event,
      (handleStartWorkflow sampleState (Settled.fulfilled "code-text")
          (Settled.fulfilled "log-text") (Settled.fulfilled sampleDataUrl)).trace =
        [Event.setLoading true, Event.setProcessedImageUrl Option.none,
         Event.setStep WorkflowStep.UPLOAD, Event.setPythonCode "",
         Event.setCloudwatchLogs "", Event.setError Option.none,
         Event.sleep 500, Event.setStep WorkflowStep.PROCESS,
         Event.startOp OpKind.remoteCode, Event.startOp OpKind.remoteLogs,
         Event.startOp OpKind.localImage, Event.joinAll] ++ post ∧
      Event.joinAll ∉ post ∧
      post.countP isStartOp = 0 ∧
      (handleStartWorkflow sampleState (Settled.fulfilled "code-text")
        (Settled.fulfilled "log-text")
        (Settled.fulfilled sampleDataUrl)).trace.countP isStartOp = 3) :=
  ⟨by decide,
   c2_three_tasks_single_join sampleState (Settled.fulfilled "code-text")
     (Settled.fulfilled "log-text") (Settled.fulfilled sampleDataUrl) (by decide)⟩

/-- C3: whenever any of the three required operations is rejected, the run
ends with the error message state set, the step reset to UPLOAD, and loading
false — the workflow is never left stuck in an intermediate step. -/
theorem c3_failure_resets_workflow (s : AppState)
    (codeResult logsResult : Settled String) (processedImageResult : Settled DataUrl)
    (h : startAllowed s = true)
    (hfail : (∃ m, codeResult = Settled.rejected m) ∨
      (∃ m, logsResult = Settled.rejected m) ∨
      (∃ m, processedImageResult = Settled.rejected m)) :
    (handleStartWorkflow s codeResult logsResult
      processedImageResult).final.error.isSome = true ∧
    (handleStartWorkflow s codeResult logsResult
      processedImageResult).final.currentStep = WorkflowStep.UPLOAD ∧
    (handleStartWorkflow s codeResult logsResult
      processedImageResult).final.isLoading = false := by
  rcases codeResult with c | m₁ <;> rcases processedImageResult with p | m₂ <;>
    rcases logsResult with l | m₃ <;>
    simp [handleStartWorkflow, handleStartWorkflowTrace, h, resetWorkflowEvents,
      bodyAfterJoin, catchEvents, applyEvent]
  simp at hfail

/-- Witness for C3 at a concrete state with a rejected code generation. -/
theorem c3_failure_resets_workflow_witness :
    startAllowed sampleState = true ∧
    (∃ m, (Settled.rejected "boom" : Settled String) = Settled.rejected m) ∧
    ((handleStartWorkflow sampleState (Settled.rejected "boom")
        (Settled.fulfilled "log-text")
        (Settled.fulfilled sampleDataUrl)).final.error.isSome = true ∧
      (handleStartWorkflow sampleState (Settled.rejected "boom")
        (Settled.fulfilled "log-text")
        (Settled.fulfilled sampleDataUrl)).final.currentStep = WorkflowStep.UPLOAD ∧
      (handleStartWorkflow sampleState (Settled.rejected "boom")
        (Settled.fulfilled "log-text")
        (Settled.fulfilled sampleDataUrl)).final.isLoading = false) :=
  ⟨by decide, ⟨"boom", rfl⟩,
   c3_failure_resets_workflow sampleState (Settled.rejected "boom")
     (Settled.fulfilled "log-text") (Settled.fulfilled sampleDataUrl) (by decide)
     (Or.inl ⟨"boom", rfl⟩)⟩

/-- C6: in a successful run the step state takes the values UPLOAD, PROCESS,
MONITOR, DONE in that order and each exactly once, the code and canvas
results are stored before the MONITOR transition, and the logs result is
stored after MONITOR and before DONE. -/
theorem c6_success_state_order (s : AppState) (c l : String) (p : DataUrl)
    (h : startAllowed s = true) :
    ((handleStartWorkflow s (Settled.fulfilled c) (Settled.fulfilled l)
        (Settled.fulfilled p)).trace).filterMap stepWrite =
      [WorkflowStep.UPLOAD, WorkflowStep.PROCESS, WorkflowStep.MONITOR,
       WorkflowStep.DONE] ∧
    ∃ t₁ t₂ t₃ : List Event,
      (handleStartWorkflow s (Settled.fulfilled c) (Settled.fulfilled l)
          (Settled.fulfilled p)).trace =
        t₁ ++ Event.setStep WorkflowStep.MONITOR :: t₂ ++
          Event.setStep WorkflowStep.DONE :: t₃ ∧
      Event.setPythonCode c ∈ t₁ ∧
      Event.setProcessedImageUrl (some p) ∈ t₁ ∧
      Event.setCloudwatchLogs l ∈ t₂ := by
  constructor
  · simp [handleStartWorkflow, handleStartWorkflowTrace, h, resetWorkflowEvents,
      bodyAfterJoin, stepWrite]
  · refine ⟨[Event.setLoading true, Event.setProcessedImageUrl Option.none,
      Event.setStep WorkflowStep.UPLOAD, Event.setPythonCode "",
      Event.setCloudwatchLogs "", Event.setError Option.none,
      Event.sleep 500, Event.setStep WorkflowStep.PROCESS,
      Event.startOp OpKind.remoteCode, Event.startOp OpKind.remoteLogs,
      Event.startOp OpKind.localImage, Event.joinAll,
      Event.setPythonCode c, Event.setProcessedImageUrl (some p)],
      [Event.sleep 500, Event.setCloudwatchLogs l],
      [Event.setLoading false], ?_, ?_, ?_, ?_⟩
    · simp [handleStartWorkflow, handleStartWorkflowTrace, h, resetWorkflowEvents,
        bodyAfterJoin]
    · simp
    · simp
    · simp

/-- Witness for C6 at a concrete state and concrete fulfilled results. -/
theorem c6_success_state_order_witness :
    startAllowed sampleState = true ∧
    (((handleStartWorkflow sampleState (Settled.fulfilled "code-text")
        (Settled.fulfilled "log-text")
        (Settled.fulfilled sampleDataUrl)).trace).filterMap stepWrite =
      [WorkflowStep.UPLOAD, WorkflowStep.PROCESS, WorkflowStep.MONITOR,
       WorkflowStep.DONE] ∧
    ∃ t₁ t₂ t₃ : List Event,
      (handleStartWorkflow sampleState (Settled.fulfilled "code-text")
          (Settled.fulfilled "log-text") (Settled.fulfilled sampleDataUrl)).trace =
        t₁ ++ Event.setStep WorkflowStep.MONITOR :: t₂ ++
          Event.setStep WorkflowStep.DONE :: t₃ ∧
      Event.setPythonCode "code-text" ∈ t₁ ∧
      Event.setProcessedImageUrl (some sampleDataUrl) ∈ t₁ ∧
      Event.setCloudwatchLogs "log-text" ∈ t₂) :=
  ⟨by decide,
   c6_success_state_order sampleState "code-text" "log-text" sampleDataUrl (by decide)⟩

/-- C8: the two service functions catch every API error and fulfil with their
fixed error strings, so when the workflow consumes their results the
rejected-branches for the code and logs checks are unreachable — the trace of
any such run never contains the corresponding error writes. -/
theorem c8_gemini_never_rejects (s : AppState) (options : ProcessingOptions)
    (api₁ api₂ : ApiOutcome) (filename m : String)
    (processedImageResult : Settled DataUrl) :
    (generateProcessingCode (ApiOutcome.apiError m) options).result =
      "Error: Could not generate code." ∧
    (generateMonitoringLogs (ApiOutcome.apiError m) options filename).result =
      "Error: Could not generate logs." ∧
    Event.setError (some "Failed to generate code.") ∉
      (handleStartWorkflow s
        (Settled.fulfilled (generateProcessingCode api₁ options).result)
        (Settled.fulfilled (generateMonitoringLogs api₂ options filename).result)
        processedImageResult).trace ∧
    Event.setError (some "Failed to generate logs.") ∉
      (handleStartWorkflow s
        (Settled.fulfilled (generateProcessingCode api₁ options).result)
        (Settled.fulfilled (generateMonitoringLogs api₂ options filename).result)
        processedImageResult).trace := by
  refine ⟨rfl, rfl, ?_, ?_⟩ <;>
  · cases hg : startAllowed s
    · simp [handleStartWorkflow, handleStartWorkflowTrace, hg]
    · rcases processedImageResult with p | m₂ <;>
        simp [handleStartWorkflow, handleStartWorkflowTrace, hg, resetWorkflowEvents,
          bodyAfterJoin, catchEvents]

end ImageWorkflow
